import Mathlib

/-
Verification development for the GraphDatabases benchmarking harness.

The Python sources (benchmark.py, databases.py, visualizer.py) are embedded
shallowly below: pure query-string construction becomes Lean string
functions, the driver suppression toggle becomes an explicit record that is
threaded through each call, the timing of perform_bench is modelled by an
explicit clock (the successive values returned by time.time()), and
exceptions become Except values.  Wall-clock quantities, CPU readings and
memory readings are rationals.
-/

set_option autoImplicit false

/-- Equality of Except values is decidable when both components have
decidable equality; used to evaluate the embedded code on concrete
inputs. -/
instance {ε α : Type} [DecidableEq ε] [DecidableEq α] : DecidableEq (Except ε α) := fun x y =>
  match x, y with
  | .ok a, .ok b =>
    if h : a = b then isTrue (by rw [h]) else isFalse (fun hc => h (Except.ok.inj hc))
  | .error a, .error b =>
    if h : a = b then isTrue (by rw [h]) else isFalse (fun hc => h (Except.error.inj hc))
  | .ok _, .error _ => isFalse (fun hc => Except.noConfusion hc)
  | .error _, .ok _ => isFalse (fun hc => Except.noConfusion hc)

/-- Python exception kinds that the embedded code can raise. -/
inductive PyError where
  | zeroDivisionError
  | noSuchProcess
  | indexError
  | valueError
  | typeError
  | runtimeError
  deriving DecidableEq, Repr

/-- Python values that appear in the property dictionaries handed to the
drivers: strings and integers. -/
inductive PVal where
  | s (v : String)
  | i (v : Int)
  deriving DecidableEq, Repr

/-- Result of Python str() on a property value, as interpolated by
f-strings in the query builders. -/
def PVal.str : PVal → String
  | .s v => v
  | .i v => toString v

/-- A single-quote character, used by the Python repr of strings. -/
def squote : String := String.singleton (Char.ofNat 39)

/-- Result of Python repr() on a property value. -/
def PVal.pyRepr : PVal → String
  | .s v => squote ++ v ++ squote
  | .i v => toString v

/-- Python str.join: sep.join(parts). -/
def pyJoin (sep : String) : List String → String
  | [] => ""
  | h :: t => t.foldl (fun acc p => acc ++ sep ++ p) h

/-- Python dict.update with a single key: replaces the value in place when
the key is present, otherwise appends the pair (insertion order kept). -/
def pyDictUpdate (d : List (String × PVal)) (kv : String × PVal) : List (String × PVal) :=
  if d.any (fun p => p.1 = kv.1) then
    d.map (fun p => if p.1 = kv.1 then (p.1, kv.2) else p)
  else
    d ++ [kv]

/-- Python str() of a dict with string keys, as produced by an f-string
interpolating a properties dictionary (OrientDB.add_node and add_edge). -/
def pyDictRepr (d : List (String × PVal)) : String :=
  "\x7b" ++ pyJoin ", " (d.map (fun kv => squote ++ kv.1 ++ squote ++ ": " ++ kv.2.pyRepr)) ++ "\x7d"

/-- Python division on numbers: raises ZeroDivisionError on a zero
denominator, otherwise produces the exact quotient. -/
def pyDiv (a b : ℚ) : Except PyError ℚ :=
  if b = 0 then .error .zeroDivisionError else .ok (a / b)

/-- One call of time.time() against an injected clock: yields the next
timestamp and the remaining clock (0 when the clock is exhausted; the
theorems always supply enough timestamps). -/
def pyTime : List ℚ → ℚ × List ℚ
  | [] => (0, [])
  | t :: ts => (t, ts)

/-! ## Driver state and the suppression toggle (databases.py) -/

/-- Observable state of one GraphDriver: the suppression flag initialised
to false by GraphDriver.__init__, plus the log of query strings actually
executed server-side (session.run / AQLQuery / client.command). -/
structure DriverState where
  suppressed : Bool
  executed : List String
  deriving DecidableEq, Repr

/-- State of a freshly constructed driver: _suppressed = False, nothing
executed. -/
def initialState : DriverState := ⟨false, []⟩

/-- GraphDriver.enter_suppression: sets _suppressed to True. -/
def enter_suppression (st : DriverState) : DriverState := { st with suppressed := true }

/-- GraphDriver.exit_suppression: sets _suppressed to False. -/
def exit_suppression (st : DriverState) : DriverState := { st with suppressed := false }

/-- The Suppress context manager of benchmark.py under Python with-statement
semantics: __enter__ calls enter_suppression, the body runs, and __exit__
calls exit_suppression on every exit path; because __exit__ returns None, a
body exception propagates after the cleanup.  The body maps the entry state
to its result (ok or raised) together with the driver state at exit time. -/
def withSuppress (st : DriverState)
    (body : DriverState → Except PyError Unit × DriverState) :
    Except PyError Unit × DriverState :=
  let st1 := enter_suppression st
  let r := body st1
  (r.1, exit_suppression r.2)

namespace NEO4j

/-- NEO4j.query: when suppressed, session.run is skipped and None is
returned; otherwise the query executes server-side (logged) and its result
is modelled by the query text. -/
def query (st : DriverState) (q : String) : Option String × DriverState :=
  if st.suppressed then (none, st)
  else (some q, { st with executed := st.executed ++ [q] })

/-- Query text built by NEO4j.add_node. -/
def add_node_q (nid : Int) (labels : List String) (props : List (String × PVal)) : String :=
  let props := pyDictUpdate props ("id", .i nid)
  "CREATE (n" ++
    (if labels ≠ [] then ":" ++ pyJoin ":" labels else "") ++
    " \x7b" ++
    pyJoin ", " (props.map (fun kv => kv.1 ++ ": \"" ++ kv.2.str ++ "\"")) ++
    "\x7d" ++ ")"

/-- NEO4j.add_node: builds the CREATE query and runs it; Python returns
None, so only the driver state is produced. -/
def add_node (st : DriverState) (nid : Int) (labels : List String)
    (props : List (String × PVal)) : DriverState :=
  (query st (add_node_q nid labels props)).2

/-- Query text built by NEO4j.add_edge. -/
def add_edge_q (src dst : String) (labels : List String)
    (props : List (String × PVal)) : String :=
  "MATCH (a), (b) WHERE a.id = \"" ++ src ++ "\" AND b.id = \"" ++ dst ++
    "\" CREATE (a)-[:" ++
    (if labels ≠ [] then pyJoin ":" labels else "") ++
    " \x7b" ++
    pyJoin ", " (props.map (fun kv => kv.1 ++ ": \"" ++ kv.2.str ++ "\"")) ++
    "\x7d" ++ "]->(b)"

/-- NEO4j.add_edge. -/
def add_edge (st : DriverState) (src dst : String) (labels : List String)
    (props : List (String × PVal)) : DriverState :=
  (query st (add_edge_q src dst labels props)).2

/-- Query text built by NEO4j.get_single_node. -/
def get_single_node_q (labels : List String) (props : List (String × PVal)) : String :=
  "MATCH (n" ++
    (if labels ≠ [] then ":" ++ pyJoin ":" labels else "") ++
    " \x7b" ++
    pyJoin ", " (props.map (fun kv => kv.1 ++ ": \"" ++ kv.2.str ++ "\"")) ++
    "\x7d" ++ ") RETURN n"

/-- NEO4j.get_single_node: returns the query result. -/
def get_single_node (st : DriverState) (labels : List String)
    (props : List (String × PVal)) : Option String × DriverState :=
  query st (get_single_node_q labels props)

/-- NEO4j.get_nodes_hops. -/
def get_nodes_hops (st : DriverState) (node_id hops : Int) : Option String × DriverState :=
  query st ("MATCH (n)-[*1.." ++ toString hops ++ "]->(m) WHERE n.id = \"" ++
    toString node_id ++ "\" RETURN DISTINCT m")

/-- NEO4j.ssp. -/
def ssp (st : DriverState) (src dst : Int) : Option String × DriverState :=
  query st ("MATCH p=shortestPath((a)-[*]->(b)) WHERE a.id = \"" ++ toString src ++
    "\" AND b.id = \"" ++ toString dst ++ "\" RETURN p")

end NEO4j

namespace ArangoDB

/-- ArangoDB.query: when suppressed, AQLQuery is skipped and None is
returned. -/
def query (st : DriverState) (q : String) : Option String × DriverState :=
  if st.suppressed then (none, st)
  else (some q, { st with executed := st.executed ++ [q] })

/-- Query text built by ArangoDB.add_node. -/
def add_node_q (nid : Int) (props : List (String × PVal)) : String :=
  let props := pyDictUpdate props ("id", .i nid)
  "INSERT \x7b" ++
    pyJoin ", " (props.map (fun kv => kv.1 ++ ": \"" ++ kv.2.str ++ "\"")) ++
    "\x7d" ++ " INTO " ++ "nodes"

/-- ArangoDB.add_node (the labels argument is ignored by the source). -/
def add_node (st : DriverState) (nid : Int) (props : List (String × PVal)) : DriverState :=
  (query st (add_node_q nid props)).2

/-- Query text built by ArangoDB.add_edge. -/
def add_edge_q (src dst : String) (props : List (String × PVal)) : String :=
  "FOR a IN nodes FILTER a.id == \"" ++ src ++ "\" FOR b IN nodes FILTER b.id == \"" ++
    dst ++ "\" " ++
    "INSERT \x7b _from: a._id, _to: b._id, " ++
    pyJoin ", " (props.map (fun kv => kv.1 ++ ": \"" ++ kv.2.str ++ "\"")) ++
    "\x7d" ++ " INTO " ++ "edges"

/-- ArangoDB.add_edge. -/
def add_edge (st : DriverState) (src dst : String) (props : List (String × PVal)) : DriverState :=
  (query st (add_edge_q src dst props)).2

/-- Query text built by ArangoDB.get_single_node. -/
def get_single_node_q (props : List (String × PVal)) : String :=
  "FOR n IN nodes FILTER " ++
    pyJoin " AND " (props.map (fun kv => "n." ++ kv.1 ++ " == \"" ++ kv.2.str ++ "\"")) ++
    " RETURN n"

/-- ArangoDB.get_single_node. -/
def get_single_node (st : DriverState) (props : List (String × PVal)) :
    Option String × DriverState :=
  query st (get_single_node_q props)

/-- ArangoDB.get_nodes_hops. -/
def get_nodes_hops (st : DriverState) (node_id hops : Int) : Option String × DriverState :=
  query st ("LET vertex = (FOR v IN nodes FILTER v.id == \"" ++ toString node_id ++
    "\" RETURN v) FOR v, e, p IN 1.." ++ toString hops ++
    " OUTBOUND vertex[0] GRAPH " ++ squote ++ "benchgraph" ++ squote ++
    " OPTIONS \x7border:\"bfs\", uniqueVertices:\"global\"\x7d RETURN DISTINCT v")

/-- ArangoDB.ssp. -/
def ssp (st : DriverState) (src dst : Int) : Option String × DriverState :=
  query st ("LET start = (FOR v IN nodes FILTER v.id == \"" ++ toString src ++
    "\" RETURN v) " ++
    "LET end = (FOR v IN nodes FILTER v.id == \"" ++ toString dst ++ "\" RETURN v) " ++
    "FOR p IN OUTBOUND SHORTEST_PATH start[0] TO end[0] GRAPH benchgraph RETURN p")

end ArangoDB

namespace OrientDB

/-- OrientDB.query: when suppressed, client.command is skipped and None is
returned (in the executing branch, command exceptions are swallowed; the
server call is still issued, which is what the log records). -/
def query (st : DriverState) (q : String) : Option String × DriverState :=
  if st.suppressed then (none, st)
  else (some q, { st with executed := st.executed ++ [q] })

/-- Query text built by OrientDB.add_node, interpolating the Python repr of
the updated properties dict. -/
def add_node_q (nid : Int) (props : List (String × PVal)) : String :=
  let props := pyDictUpdate props ("id", .i nid)
  "CREATE VERTEX V content " ++ pyDictRepr props

/-- OrientDB.add_node. -/
def add_node (st : DriverState) (nid : Int) (props : List (String × PVal)) : DriverState :=
  (query st (add_node_q nid props)).2

/-- Query text built by OrientDB.add_edge. -/
def add_edge_q (src dst : String) (props : List (String × PVal)) : String :=
  "CREATE EDGE E FROM (SELECT FROM V WHERE id = \"" ++ src ++
    "\") TO (SELECT FROM V WHERE id = \"" ++ dst ++ "\")" ++
    " content " ++ pyDictRepr props

/-- OrientDB.add_edge. -/
def add_edge (st : DriverState) (src dst : String) (props : List (String × PVal)) : DriverState :=
  (query st (add_edge_q src dst props)).2

/-- Query text built by OrientDB.get_single_node. -/
def get_single_node_q (props : List (String × PVal)) : String :=
  "SELECT FROM V WHERE " ++
    pyJoin " AND " (props.map (fun kv => kv.1 ++ " = \"" ++ kv.2.str ++ "\""))

/-- OrientDB.get_single_node. -/
def get_single_node (st : DriverState) (props : List (String × PVal)) :
    Option String × DriverState :=
  query st (get_single_node_q props)

/-- OrientDB.get_nodes_hops. -/
def get_nodes_hops (st : DriverState) (node_id hops : Int) : Option String × DriverState :=
  query st ("TRAVERSE OUT() FROM (SELECT FROM V WHERE id = \"" ++ toString node_id ++
    "\") MAXDEPTH " ++ toString hops)

/-- OrientDB.ssp. -/
def ssp (st : DriverState) (src dst : Int) : Option String × DriverState :=
  query st ("SELECT shortestPath((SELECT FROM V WHERE id = \"" ++ toString src ++
    "\"), (SELECT FROM V WHERE id = \"" ++ toString dst ++ "\"))")

end OrientDB

/-! ## Profiler (benchmark.py, class Profiler) -/

/-- Per-process readings available to the sampler: table mapping a pid to
(cpu_percent reading, memory_info().rss reading), or none when the process
no longer exists (psutil raises NoSuchProcess for it). -/
def ProcTable := Int → Option (ℚ × ℚ)

/-- Final content of the cpu array filled by the cpu_thread workers of
Profiler._run: the worker for the pid at position i writes its reading into
slot pids.index(pid), the first occurrence of that pid.  Slot j therefore
ends up holding the reading of pids[j] when j is a first-occurrence index
and 0 otherwise, independently of thread interleaving. -/
def cpuSlots (pids : List Int) (f : Int → ℚ) : List ℚ :=
  (List.range pids.length).map (fun j =>
    if pids.indexOf (pids.getD j 0) = j then f (pids.getD j 0) else 0)

/-- The mem accumulation loop of Profiler._run: psutil.Process(pid) raises
NoSuchProcess when the pid has exited, otherwise its rss reading is added. -/
def memSum (t : ProcTable) : List Int → Except PyError ℚ
  | [] => .ok 0
  | p :: ps =>
    match t p with
    | none => .error .noSuchProcess
    | some r =>
      match memSum t ps with
      | .ok m => .ok (r.2 + m)
      | .error e => .error e

/-- One iteration of the Profiler._run sampling loop: builds the process
objects and the rss sum (raising NoSuchProcess for an exited pid), runs the
cpu_thread pool, then records (sum(cpu), mem / 1024 / 1024). -/
def runIteration (pids : List Int) (t : ProcTable) : Except PyError (ℚ × ℚ) :=
  match memSum t pids with
  | .error e => .error e
  | .ok mem =>
    .ok ((cpuSlots pids (fun p => ((t p).getD (0, 0)).1)).sum, mem / 1024 / 1024)

/-- Profiler.get_average_cpu_usage: sum(cpu_usage) / len(cpu_usage) under
Python division. -/
def get_average_cpu_usage (cpu_usage : List ℚ) : Except PyError ℚ :=
  pyDiv cpu_usage.sum cpu_usage.length

/-- Profiler.get_average_memory_usage: sum(memory_usage) / len(memory_usage)
under Python division. -/
def get_average_memory_usage (memory_usage : List ℚ) : Except PyError ℚ :=
  pyDiv memory_usage.sum memory_usage.length

/-! ## Benchmark orchestration (benchmark.py) -/

/-- One call of save_data as observed by the orchestrator: file base name,
header list and column list, before serialization. -/
structure SaveCall where
  name : String
  head : List String
  cols : List (List ℚ)
  deriving DecidableEq, Repr

/-- The perform_bench orchestrator.  The clock lists the successive values
produced by time.time(); samples is the (cpu, mem) series the background
profiler collected during the real run.  The function times the suppressed
dry run, times the real run, computes duration = end - start - overhead,
and either records a save_data call (save=True, returning None) or returns
(avg cpu, avg mem, duration). -/
def perform_bench (clock : List ℚ) (samples : List (ℚ × ℚ)) (save : Bool)
    (benchName dbName : String) :
    Except PyError (Option (ℚ × ℚ × ℚ)) × List SaveCall :=
  let r1 := pyTime clock
  let r2 := pyTime r1.2
  let overhead := r2.1 - r1.1
  let r3 := pyTime r2.2
  let r4 := pyTime r3.2
  let duration := r4.1 - r3.1 - overhead
  let cpus := samples.map Prod.fst
  let mems := samples.map Prod.snd
  if save then
    (.ok none,
     [⟨benchName ++ "_" ++ dbName, ["_Time [s]", "CPU [%]", "MEM [MB]"],
       [(List.range cpus.length).map (fun i => (i : ℚ)), cpus, mems]⟩])
  else
    match get_average_cpu_usage cpus with
    | .error e => (.error e, [])
    | .ok c =>
      match get_average_memory_usage mems with
      | .error e => (.error e, [])
      | .ok m => (.ok (some (c, m, duration)), [])

/-- Keyword-argument values handed to iterate_bench: plain numbers or the
one list to sweep over. -/
inductive PyArg where
  | scalar (v : ℚ)
  | list (vs : List ℚ)
  deriving DecidableEq, Repr

/-- First keyword argument whose value is a list, in insertion order, as
found by the for-loop of iterate_bench. -/
def findListArg : List (String × PyArg) → Option (String × List ℚ)
  | [] => none
  | (n, .list vs) :: _ => some (n, vs)
  | _ :: rest => findListArg rest

/-- The kwargs.copy() followed by new_kwargs[arg] = value step of
iterate_bench. -/
def substituteArg (kwargs : List (String × PyArg)) (name : String) (v : ℚ) :
    List (String × PyArg) :=
  kwargs.map (fun p => if p.1 = name then (p.1, PyArg.scalar v) else p)

/-- Observable outcome of iterate_bench: the four parallel sequences it
accumulates and the save_data calls it makes. -/
structure SweepOut where
  values : List ℚ
  cpu_usage : List ℚ
  memory_usage : List ℚ
  duration : List ℚ
  saves : List SaveCall
  deriving DecidableEq, Repr

/-- The iterate_bench orchestrator.  run abstracts the triple returned by
perform_bench(save=False) for one substituted parameter set (that call
makes no save_data call, which is proved separately about perform_bench).
When no keyword argument is a list, v_name stays None and the final
"_" + v_name concatenation raises TypeError. -/
def iterate_bench (run : List (String × PyArg) → ℚ × ℚ × ℚ)
    (benchName dbName : String) (kwargs : List (String × PyArg)) :
    Except PyError SweepOut :=
  match findListArg kwargs with
  | none => .error .typeError
  | some (vname, vs) =>
    let results := vs.map (fun v => (v, run (substituteArg kwargs vname v)))
    let values := results.map Prod.fst
    let cpu := results.map (fun r => r.2.1)
    let mem := results.map (fun r => r.2.2.1)
    let dur := results.map (fun r => r.2.2.2)
    .ok ⟨values, cpu, mem, dur,
      [⟨benchName ++ "_" ++ dbName ++ "_iter",
        ["_" ++ vname, "CPU [%]", "MEM [MB]", "TIME [s]"],
        [values, cpu, mem, dur]⟩]⟩

/-! ## Result writer (benchmark.py, save_data) and reader
(visualizer.py, show_single_bench) -/

/-- File-system effects of save_data in order: creation of the output file
by open(name, "w") and each f.write chunk. -/
inductive WEvent where
  | created (name : String)
  | wrote (s : String)
  deriving DecidableEq, Repr

/-- The inner for-loop of one save_data row: each column contributes the
chunk f"{arg[i]}," in order; a column shorter than the first raises
IndexError at arg[i] after the earlier chunks of the row were written.
Cells are integer-valued in the modelled runs, so f-string rendering is
str(int). -/
def writeRowChunks (i : Nat) : List (List Int) → Option PyError × List String
  | [] => (none, [])
  | c :: cs =>
    match c.get? i with
    | none => (some .indexError, [])
    | some v =>
      let r := writeRowChunks i cs
      (r.1, (toString v ++ ",") :: r.2)

/-- The outer row loop of save_data over the row indices
range(len(args[0])), appending the newline written after each row. -/
def writeRows (cols : List (List Int)) : List Nat → Option PyError × List String
  | [] => (none, [])
  | i :: is =>
    let row := writeRowChunks i cols
    match row.1 with
    | some e => (some e, row.2)
    | none =>
      let rest := writeRows cols is
      (rest.1, row.2 ++ ["\n"] ++ rest.2)

/-- The save_data writer: opens Results/{name}_{timestamp}.bench (creating
the file), writes the comma-joined header line, then writes the rows; an
IndexError from a short column surfaces only after the preceding writes.
An empty args list raises IndexError at len(args[0]), after the header was
already written. -/
def save_data (name : String) (head : List String) (cols : List (List Int))
    (timestamp : String) : Option PyError × List WEvent :=
  let fname := "Results/" ++ name ++ "_" ++ timestamp ++ ".bench"
  let pre : List WEvent := [.created fname, .wrote (pyJoin "," head ++ "\n")]
  match cols.head? with
  | none => (some .indexError, pre)
  | some c0 =>
    let r := writeRows cols (List.range c0.length)
    (r.1, pre ++ r.2.map WEvent.wrote)

/-- Concatenated content of the written file: every wrote chunk in order. -/
def fileContent (evs : List WEvent) : String :=
  evs.foldl (fun acc e => match e with | .created _ => acc | .wrote s => acc ++ s) ""

/-- Split of a character list at every occurrence of a separator character,
mirroring Python str.split with a one-character separator (an empty input
yields one empty field). -/
def splitOnChar (c : Char) : List Char → List (List Char)
  | [] => [[]]
  | x :: xs =>
    let r := splitOnChar c xs
    if x = c then [] :: r
    else
      match r with
      | [] => [[x]]
      | g :: gs => (x :: g) :: gs

/-- Python str.split(sep) for a one-character separator. -/
def pySplit (s : String) (c : Char) : List String :=
  (splitOnChar c s.data).map (fun cs => String.mk cs)

/-- Test for the leading underscore of the independent-variable header,
h[0] == underscore in the source (which presupposes a nonempty header). -/
def headUnderscore (h : String) : Bool :=
  match h.data with
  | c :: _ => c = Char.ofNat 95
  | [] => false

/-- Python str.strip(): removes leading and trailing whitespace. -/
def pyStrip (s : String) : String :=
  String.mk (((s.data.dropWhile Char.isWhitespace).reverse.dropWhile Char.isWhitespace).reverse)

/-- Lines seen when iterating a text file whose content is s: splitting at
newlines, without a final empty line when the content ends in a newline. -/
def pyReadLines (s : String) : List String :=
  let parts := pySplit s (Char.ofNat 10)
  if parts.getLast? = some "" then parts.dropLast else parts

/-- Digit-string parsing helper for float(): all characters must be digits
and at least one must be present. -/
def parseNatDigits (cs : List Char) : Option Nat :=
  if cs = [] then none
  else if cs.all Char.isDigit then
    some (cs.foldl (fun n c => 10 * n + (c.toNat - 48)) 0)
  else none

/-- Python float() on the decimal strings the writer produces: an optional
minus sign, digits, and an optional fractional part; anything else (for
example the empty field after a trailing comma) raises ValueError. -/
def pyFloat (s : String) : Except PyError ℚ :=
  let signed := match s.data with
    | c :: rest => if c = Char.ofNat 45 then (true, rest) else (false, s.data)
    | [] => (false, [])
  let mk : ℚ → ℚ := fun q => if signed.1 then -q else q
  match splitOnChar (Char.ofNat 46) signed.2 with
  | [a] =>
    match parseNatDigits a with
    | some n => .ok (mk n)
    | none => .error .valueError
  | [a, b] =>
    match parseNatDigits a, parseNatDigits b with
    | some n, some f => .ok (mk ((n : ℚ) + (f : ℚ) / (10 : ℚ) ^ b.length))
    | _, _ => .error .valueError
  | _ => .error .valueError

/-- The inner loop of show_single_bench over the enumerated fields of one
line: data[i].append(float(v)) first indexes data, so a field index beyond
len(head) raises IndexError before float(v) is evaluated. -/
def parseFields (nData : Nat) : List String → Nat → Except PyError (List ℚ)
  | [], _ => .ok []
  | v :: vs, i =>
    if i < nData then
      match pyFloat v with
      | .error e => .error e
      | .ok q =>
        match parseFields nData vs (i + 1) with
        | .error e => .error e
        | .ok qs => .ok (q :: qs)
    else .error .indexError

/-- Appending one parsed row across the per-column data lists. -/
def appendRow : List (List ℚ) → List ℚ → List (List ℚ)
  | cols, [] => cols
  | [], _ => []
  | c :: cs, q :: qs => (c ++ [q]) :: appendRow cs qs

/-- The data-line loop of show_single_bench. -/
def readDataAux (cols : List (List ℚ)) : List String → Except PyError (List (List ℚ))
  | [] => .ok cols
  | l :: ls =>
    match parseFields cols.length (pySplit (pyStrip l) (Char.ofNat 44)) 0 with
    | .error e => .error e
    | .ok row => readDataAux (appendRow cols row) ls

/-- The reading half of show_single_bench: the first line is split into the
headers, every further line is split and parsed into the per-column data,
and the unique header starting with an underscore is identified as the
x-axis name (indexing the filtered list raises IndexError when none
exists).  Plotting is outside the model. -/
def show_single_bench_read (ls : List String) :
    Except PyError (String × List String × List (List ℚ)) :=
  let head := pySplit (pyStrip (ls.headD "")) (Char.ofNat 44)
  match readDataAux (List.replicate head.length []) ls.tail with
  | .error e => .error e
  | .ok data =>
    match (head.filter headUnderscore).head? with
    | none => .error .indexError
    | some xname => .ok (xname, head, data)

/-! ## Definitions used by concrete witnesses and counterexamples -/

/-- A workload body that raises, for exercising the suppression scope. -/
def failingBody : DriverState → Except PyError Unit × DriverState :=
  fun st => (.error .runtimeError, st)

/-- Process table in which every pid has exited. -/
def deadTable : ProcTable := fun _ => none

/-- Process table in which pid 7 is alive and every other pid has exited. -/
def oneDeadTable : ProcTable :=
  fun q => if q = 7 then some (1, 1024) else none

/-- Process table with two live pids whose rss readings are 1 MiB and
2 MiB in bytes. -/
def mbTable : ProcTable :=
  fun p => if p = 1 then some (10, 1048576) else if p = 2 then some (20, 2097152) else none

/-- Deterministic mock of the perform_bench triple for the sweep witness. -/
def sweepRun : List (String × PyArg) → ℚ × ℚ × ℚ := fun _ => (1, 2, 3)

/-- Keyword arguments holding one sweep list, for the sweep witness. -/
def sweepKwargs : List (String × PyArg) := [("size", PyArg.list [1, 2, 3])]

/-! ## Helper lemmas -/

/-- With pairwise distinct pids every cpu slot receives exactly the reading
of its own pid, so the slot list is the list of per-pid readings. -/
theorem cpuSlots_eq_map (pids : List Int) (f : Int → ℚ) (h : pids.Nodup) :
    cpuSlots pids f = pids.map f := by
  apply List.ext_getElem
  · simp [cpuSlots]
  · intro j h1 h2
    have hj : j < pids.length := by simpa [cpuSlots] using h1
    simp only [cpuSlots, List.getElem_map, List.getElem_range]
    rw [List.getD_eq_getElem pids 0 hj, List.indexOf_getElem h j hj]
    simp

/-- When every pid is alive, the mem accumulation succeeds with the sum of
the rss readings. -/
theorem memSum_eq_sum (t : ProcTable) (pids : List Int)
    (h : ∀ p ∈ pids, (t p).isSome) :
    memSum t pids = .ok ((pids.map (fun p => ((t p).getD (0, 0)).2)).sum) := by
  induction pids with
  | nil => simp [memSum]
  | cons p ps ih =>
    obtain ⟨r, hr⟩ := Option.isSome_iff_exists.mp (h p (by simp))
    have hrec := ih (fun q hq => h q (by simp [hq]))
    simp [memSum, hr, hrec]

/-- When some pid in the list has exited, the mem accumulation raises
NoSuchProcess. -/
theorem memSum_none (t : ProcTable) (pids : List Int) (p : Int)
    (hp : p ∈ pids) (ht : t p = none) :
    memSum t pids = .error .noSuchProcess := by
  induction pids with
  | nil => simp at hp
  | cons q qs ih =>
    rcases hqt : t q with _ | r
    · simp [memSum, hqt]
    · have hpq : p ∈ qs := by
        rcases List.mem_cons.mp hp with h1 | h1
        · subst h1; rw [ht] at hqt; exact Option.noConfusion hqt
        · exact h1
      simp [memSum, hqt, ih hpq]

/-- For a duplicate-free set of live pids, one sampling iteration yields
the summed CPU readings and the summed rss readings scaled to MiB. -/
theorem runIteration_eq_sum (pids : List Int) (t : ProcTable)
    (hnd : pids.Nodup) (hall : ∀ p ∈ pids, (t p).isSome) :
    runIteration pids t =
      .ok ((pids.map (fun p => ((t p).getD (0, 0)).1)).sum,
           (pids.map (fun p => ((t p).getD (0, 0)).2)).sum / 1024 / 1024) := by
  simp [runIteration, memSum_eq_sum t pids hall, cpuSlots_eq_map pids _ hnd]

/-- Mapping a projection over the (value, result) pairs accumulated by the
sweep loop is mapping the projected expression over the values. -/
theorem map_pair {α : Type} (vs : List ℚ) (g : ℚ → ℚ × ℚ × ℚ)
    (f : ℚ × (ℚ × ℚ × ℚ) → α) :
    (vs.map (fun v => (v, g v))).map f = vs.map (fun v => f (v, g v)) := by
  rw [List.map_map]
  rfl

/-! ## Claim theorems -/

/-- C1: the corrected duration returned by perform_bench equals the
measured wall time of the real run minus the wall time of the suppressed
dry run, exactly, with no clamping: the value t4 - t3 - (t2 - t1) is
surfaced unchanged even when it is negative. -/
theorem corrected_duration_exact (t1 t2 t3 t4 : ℚ) (rest : List ℚ)
    (samples : List (ℚ × ℚ)) (hs : samples ≠ []) (bn dn : String) :
    perform_bench (t1 :: t2 :: t3 :: t4 :: rest) samples false bn dn =
      (.ok (some ((samples.map Prod.fst).sum / (samples.length : ℚ),
                  (samples.map Prod.snd).sum / (samples.length : ℚ),
                  t4 - t3 - (t2 - t1))), []) := by
  have h0 : samples.length ≠ 0 := fun h => hs (List.length_eq_zero.mp h)
  have hq : ((samples.length : ℚ)) ≠ 0 := Nat.cast_ne_zero.mpr h0
  simp [perform_bench, pyTime, get_average_cpu_usage, get_average_memory_usage, pyDiv, hq]

/-- Witness for C1 at a concrete run in which the overhead (2) exceeds the
real cost (1): the corrected duration is the negative value -1, surfaced
unchanged. -/
theorem corrected_duration_exact_witness :
    perform_bench [0, 2, 2, 3] [(1, 2)] false "b" "d" =
      (.ok (some (1, 2, -1)), []) ∧ (-1 : ℚ) < 0 := by
  constructor
  · have h := corrected_duration_exact 0 2 2 3 [] [(1, 2)] (by simp) "b" "d"
    rw [h]; norm_num
  · norm_num

/-- C2: the Suppress scope restores the toggle to false on every exit path;
in particular a body exception still passes through exit_suppression before
it propagates to the caller. -/
theorem suppression_released_on_error (st : DriverState)
    (body : DriverState → Except PyError Unit × DriverState) (e : PyError) :
    (withSuppress st body).2.suppressed = false ∧
    ((body (enter_suppression st)).1 = .error e →
      (withSuppress st body).1 = .error e) := by
  constructor
  · simp [withSuppress, exit_suppression]
  · intro h
    simp [withSuppress, h]

/-- Witness for C2: a body that raises RuntimeError still leaves the
suppression flag false and the error is propagated. -/
theorem suppression_released_on_error_witness :
    (withSuppress initialState failingBody).2.suppressed = false ∧
    (withSuppress initialState failingBody).1 = .error .runtimeError := by
  have h := suppression_released_on_error initialState failingBody .runtimeError
  exact ⟨h.1, h.2 rfl⟩

/-- C3: while the suppression toggle is set, every capability call on every
backend still builds its query string but executes nothing server-side and
returns None: the driver state (including the log of executed queries) is
unchanged and each read capability yields none. -/
theorem suppressed_no_execution (st : DriverState) (h : st.suppressed = true)
    (nid : Int) (labels : List String) (props : List (String × PVal))
    (src dst : String) (node_id hops sp dp : Int) :
    NEO4j.add_node st nid labels props = st ∧
    NEO4j.add_edge st src dst labels props = st ∧
    NEO4j.get_single_node st labels props = (none, st) ∧
    NEO4j.get_nodes_hops st node_id hops = (none, st) ∧
    NEO4j.ssp st sp dp = (none, st) ∧
    ArangoDB.add_node st nid props = st ∧
    ArangoDB.add_edge st src dst props = st ∧
    ArangoDB.get_single_node st props = (none, st) ∧
    ArangoDB.get_nodes_hops st node_id hops = (none, st) ∧
    ArangoDB.ssp st sp dp = (none, st) ∧
    OrientDB.add_node st nid props = st ∧
    OrientDB.add_edge st src dst props = st ∧
    OrientDB.get_single_node st props = (none, st) ∧
    OrientDB.get_nodes_hops st node_id hops = (none, st) ∧
    OrientDB.ssp st sp dp = (none, st) := by
  simp [NEO4j.add_node, NEO4j.add_edge, NEO4j.get_single_node, NEO4j.get_nodes_hops,
    NEO4j.ssp, ArangoDB.add_node, ArangoDB.add_edge, ArangoDB.get_single_node,
    ArangoDB.get_nodes_hops, ArangoDB.ssp, OrientDB.add_node, OrientDB.add_edge,
    OrientDB.get_single_node, OrientDB.get_nodes_hops, OrientDB.ssp,
    NEO4j.query, ArangoDB.query, OrientDB.query, h]

/-- Witness for C3 at a suppressed driver state and the arguments of the
node-insertion workload. -/
theorem suppressed_no_execution_witness :
    NEO4j.add_node ⟨true, []⟩ 0 ["test"] [("name", PVal.s "test0")] = ⟨true, []⟩ :=
  (suppressed_no_execution ⟨true, []⟩ rfl 0 ["test"] [("name", PVal.s "test0")]
    "0" "1" 1 10 1 1510).1

/-- Counterexample to C4: with a single pid whose process has exited, the
sampling iteration raises NoSuchProcess instead of contributing a zero
sample. -/
theorem exited_pid_not_zero_sample :
    runIteration [42] deadTable = .error .noSuchProcess ∧
    runIteration [42] deadTable ≠ .ok (0, 0) := by
  have h : runIteration [42] deadTable = .error .noSuchProcess := rfl
  refine ⟨h, ?_⟩
  rw [h]
  simp

/-- C4 as amended: a pid in the ProcessSet whose process has exited makes
the sampling iteration raise psutil.NoSuchProcess (at psutil.Process(pid)),
so no sample is appended for that tick and the sampling loop body fails
rather than recording a zero contribution. -/
theorem exited_pid_raises (pids : List Int) (t : ProcTable) (p : Int)
    (hp : p ∈ pids) (ht : t p = none) :
    runIteration pids t = .error .noSuchProcess := by
  simp [runIteration, memSum_none t pids p hp ht]

/-- Witness for the amended C4: pid 7 is alive, pid 42 has exited; the
iteration raises. -/
theorem exited_pid_raises_witness :
    runIteration [7, 42] oneDeadTable = .error .noSuchProcess :=
  exited_pid_raises [7, 42] oneDeadTable 42 (by simp) rfl

/-- C5: computing the average CPU or average memory of an empty sample
series raises ZeroDivisionError; it does not return a number. -/
theorem empty_series_average_raises :
    get_average_cpu_usage [] = .error .zeroDivisionError ∧
    get_average_memory_usage [] = .error .zeroDivisionError := by
  constructor <;> rfl

/-- Counterexample to C6: with rss readings 1048576 and 2097152 bytes the
recorded memory value is 3, not their sum 3145728, because the source
divides the summed rss by 1024 twice before recording it. -/
theorem memory_not_sum_of_rss :
    runIteration [1, 2] mbTable = .ok (30, 3) ∧
    runIteration [1, 2] mbTable ≠ .ok (30, 3145728) := by
  have h : runIteration [1, 2] mbTable = .ok (30, 3) := by
    rw [runIteration_eq_sum [1, 2] mbTable (by decide) (by decide)]
    norm_num [mbTable]
  have hne : ((3 : ℚ)) ≠ 3145728 := by norm_num
  refine ⟨h, ?_⟩
  rw [h]
  simp [hne]

/-- C6 as amended: for a duplicate-free ProcessSet of live pids, the
recorded cpuPercent is the sum of the per-pid CPU readings and the recorded
memory value is the sum of the per-pid rss readings divided by 1024 twice
(the summed resident set expressed in MiB) — summed, not averaged. -/
theorem sample_aggregates_summed (pids : List Int) (t : ProcTable)
    (hnd : pids.Nodup) (hall : ∀ p ∈ pids, (t p).isSome) :
    runIteration pids t =
      .ok ((pids.map (fun p => ((t p).getD (0, 0)).1)).sum,
           (pids.map (fun p => ((t p).getD (0, 0)).2)).sum / 1024 / 1024) :=
  runIteration_eq_sum pids t hnd hall

/-- Witness for the amended C6 at two live pids with CPU readings 10 and
20 and rss readings 1 MiB and 2 MiB. -/
theorem sample_aggregates_summed_witness :
    runIteration [1, 2] mbTable = .ok (30, 3) := by
  have h := sample_aggregates_summed [1, 2] mbTable (by decide) (by decide)
  rw [h]
  norm_num [mbTable]

/-- C7: a sweep over the list found among the keyword arguments produces
four index-aligned sequences of equal length whose values component is the
input list itself in order, and exactly one save_data call is made, at the
end, carrying the full sweep. -/
theorem sweep_parallel_sequences (run : List (String × PyArg) → ℚ × ℚ × ℚ)
    (bn dn : String) (kwargs : List (String × PyArg)) (vname : String) (vs : List ℚ)
    (hfind : findListArg kwargs = some (vname, vs)) :
    iterate_bench run bn dn kwargs =
      .ok { values := vs,
            cpu_usage := vs.map (fun v => (run (substituteArg kwargs vname v)).1),
            memory_usage := vs.map (fun v => (run (substituteArg kwargs vname v)).2.1),
            duration := vs.map (fun v => (run (substituteArg kwargs vname v)).2.2),
            saves := [⟨bn ++ "_" ++ dn ++ "_iter",
                      ["_" ++ vname, "CPU [%]", "MEM [MB]", "TIME [s]"],
                      [vs,
                       vs.map (fun v => (run (substituteArg kwargs vname v)).1),
                       vs.map (fun v => (run (substituteArg kwargs vname v)).2.1),
                       vs.map (fun v => (run (substituteArg kwargs vname v)).2.2)]⟩] } ∧
    (vs.map (fun v => (run (substituteArg kwargs vname v)).1)).length = vs.length ∧
    (vs.map (fun v => (run (substituteArg kwargs vname v)).2.1)).length = vs.length ∧
    (vs.map (fun v => (run (substituteArg kwargs vname v)).2.2)).length = vs.length := by
  refine ⟨?_, by simp, by simp, by simp⟩
  simp only [iterate_bench, hfind, map_pair]
  simp

/-- Witness for C7 at the sweep list [1, 2, 3] with a deterministic mock
triple (1, 2, 3) per run. -/
theorem sweep_parallel_sequences_witness :
    iterate_bench sweepRun "b" "d" sweepKwargs =
      .ok ⟨[1, 2, 3], [1, 1, 1], [2, 2, 2], [3, 3, 3],
        [⟨"b_d_iter", ["_size", "CPU [%]", "MEM [MB]", "TIME [s]"],
          [[1, 2, 3], [1, 1, 1], [2, 2, 2], [3, 3, 3]]⟩]⟩ := by
  have h := (sweep_parallel_sequences sweepRun "b" "d" sweepKwargs "size" [1, 2, 3] rfl).1
  exact h.trans (by rfl)

/-- C8 is a code bug: save_data writes a trailing comma after every row, so
each data line splits into one more field than there are headers, and the
reader of show_single_bench indexes data[len(head)] and raises IndexError.
Writing headers [_x, y] with columns [[1, 2], [3, 4]] succeeds, but parsing
the written file back fails instead of returning the original rows. -/
theorem result_roundtrip_reader_crashes :
    (save_data "w" ["_x", "y"] [[1, 2], [3, 4]] "T").1 = none ∧
    show_single_bench_read
        (pyReadLines (fileContent (save_data "w" ["_x", "y"] [[1, 2], [3, 4]] "T").2)) =
      .error .indexError := by
  exact ⟨rfl, by decide⟩

/-- Counterexample to C9: with columns [[1, 2], [3]] of unequal length,
save_data raises IndexError only after the output file has been created
(and the header and first row written): there is no fail-fast check before
I/O. -/
theorem writer_no_fail_fast :
    (save_data "b" ["_x", "y"] [[1, 2], [3]] "T").1 = some .indexError ∧
    (save_data "b" ["_x", "y"] [[1, 2], [3]] "T").2.head? =
      some (.created "Results/b_T.bench") := by
  exact ⟨rfl, rfl⟩

/-- C9 as amended: save_data performs no column-length validation; for
every input, valid or not, its first file-system effect is creating the
output file, before any length mismatch can surface. -/
theorem writer_creates_file_first (name : String) (head : List String)
    (cols : List (List Int)) (ts : String) :
    (save_data name head cols ts).2.head? =
      some (.created ("Results/" ++ name ++ "_" ++ ts ++ ".bench")) := by
  cases h : cols.head? <;> simp [save_data, h]

/-- C10: perform_bench returns the (avg cpu, avg mem, duration) triple
exactly when save=False; with save=True it makes one save_data call with
the per-sample series (time indices, cpu series, mem series) and returns
None. -/
theorem save_flag_dispatch (clock : List ℚ) (samples : List (ℚ × ℚ))
    (bn dn : String) (hs : samples ≠ []) :
    (∃ c m d, perform_bench clock samples false bn dn = (.ok (some (c, m, d)), [])) ∧
    perform_bench clock samples true bn dn =
      (.ok none,
       [⟨bn ++ "_" ++ dn, ["_Time [s]", "CPU [%]", "MEM [MB]"],
         [(List.range samples.length).map (fun i => (i : ℚ)),
          samples.map Prod.fst, samples.map Prod.snd]⟩]) := by
  have h0 : samples.length ≠ 0 := fun h => hs (List.length_eq_zero.mp h)
  have hq : ((samples.length : ℚ)) ≠ 0 := Nat.cast_ne_zero.mpr h0
  constructor
  · obtain ⟨c, hc⟩ : ∃ c, get_average_cpu_usage (samples.map Prod.fst) = .ok c := by
      simp [get_average_cpu_usage, pyDiv, hq]
    obtain ⟨m, hm⟩ : ∃ m, get_average_memory_usage (samples.map Prod.snd) = .ok m := by
      simp [get_average_memory_usage, pyDiv, hq]
    refine ⟨c, m,
      (pyTime (pyTime (pyTime (pyTime clock).2).2).2).1 -
        (pyTime (pyTime (pyTime clock).2).2).1 -
        ((pyTime (pyTime clock).2).1 - (pyTime clock).1), ?_⟩
    simp [perform_bench, hc, hm]
  · simp [perform_bench]

/-- Witness for C10 at a one-sample series: save=False returns a triple
with no save, save=True saves the series and returns None. -/
theorem save_flag_dispatch_witness :
    (∃ c m d, perform_bench [0, 1, 1, 3] [(4, 8)] false "b" "d" =
      (.ok (some (c, m, d)), [])) ∧
    perform_bench [0, 1, 1, 3] [(4, 8)] true "b" "d" =
      (.ok none, [⟨"b_d", ["_Time [s]", "CPU [%]", "MEM [MB]"], [[0], [4], [8]]⟩]) := by
  have h := save_flag_dispatch [0, 1, 1, 3] [(4, 8)] "b" "d" (by simp)
  exact ⟨h.1, h.2.trans (by rfl)⟩
